import Mathlib

/-!
A shallow embedding of the `mcp-pandas` server (`src/mcp_pandas/server.py`)
and proofs about the behaviour of its tool dispatcher, resource reader,
prompt handlers and dataset loader.

Modelling conventions:
* The pandas `DataFrame` global `df` is modelled by `McpPandas.Table`: an
  ordered list of named columns whose cells are exact rationals (the
  idealisation of the numeric columns the `average`/`plot` tools operate on).
* Python exceptions raised inside the `try:` block of `handle_call_tool` are
  modelled with `Except String`; the surrounding `except Exception` clause is
  the outer `match` in `handle_call_tool`.  Falling off the end of the Python
  function (which returns `None`) is modelled by `Except.ok none`.
* Chart rendering (`df.plot(...).get_figure()` / `savefig`) is delegated to
  matplotlib in the source; it is kept abstract here as a `render` parameter
  producing the PNG byte stream (a list of byte values).
* Tool arguments arrive as a JSON object (`dict[str, Any] | None`); they are
  modelled as an optional association list with string values, looked up by
  first match (Python dict keys are unique, so first-match lookup agrees with
  dict lookup).  Python truthiness of an optional string (`if x and y:`) is
  `truthy`.
-/

namespace McpPandas

/-- The in-memory pandas `DataFrame` (`df` global in `server.py`): an ordered
sequence of named columns with rational cell values. -/
structure Table where
  cols : List (String × List ℚ)
deriving DecidableEq

/-- `df.columns` — the ordered column names. -/
def Table.columns (df : Table) : List String :=
  df.cols.map Prod.fst

/-- The number of rows (`df.shape[0]`): the length of the first column
(a loaded frame has all columns of equal length). -/
def Table.nRows (df : Table) : ℕ :=
  match df.cols with
  | [] => 0
  | c :: _ => c.2.length

/-- `df.shape` — the (row count, column count) pair. -/
def Table.shape (df : Table) : ℕ × ℕ :=
  (df.nRows, df.cols.length)

/-- `df[c]` — the cell values of column `c` (first match; empty if absent). -/
def Table.getCol (df : Table) (c : String) : List ℚ :=
  ((df.cols.find? (fun p => p.1 == c)).map Prod.snd).getD []

/-- `Series.mean()` on a numeric column: sum divided by length (exact
rational idealisation of the floating-point mean). -/
def listMean (l : List ℚ) : ℚ :=
  l.sum / l.length

/-- Floor of a rational, written out explicitly (`Int.fdiv` rounds towards
negative infinity, matching mathematical floor). -/
def ratFloor (q : ℚ) : ℤ :=
  q.num.fdiv q.den

/-- Python's `round` to the nearest integer: round half to even
(banker's rounding). -/
def roundHalfEven (q : ℚ) : ℤ :=
  let f := ratFloor q
  let r := q - (f : ℚ)
  if r < 1 / 2 then f
  else if 1 / 2 < r then f + 1
  else if f % 2 = 0 then f else f + 1

/-- Python's `round(q, 3)`: round to 3 decimal fractional digits,
half to even. -/
def round3 (q : ℚ) : ℚ :=
  (roundHalfEven (q * 1000) : ℚ) / 1000

/-- Python's `str()` of a float that is an exact multiple of 1/1000 (the
output of `round(_, 3)`): sign, integer part, a decimal point, and the
fractional digits with trailing zeros dropped but at least one digit kept
(`str(round(1.5, 3)) = "1.5"`, `str(round(2.0, 3)) = "2.0"`,
`str(round(-0.23, 3)) = "-0.23"`). -/
def fmtQ (q : ℚ) : String :=
  let m : ℤ := (1000 * q).num
  let sign := if m < 0 then "-" else ""
  let a := m.natAbs
  let ip := a / 1000
  let fp := a % 1000
  let d1 := fp / 100
  let d2 := fp / 10 % 10
  let d3 := fp % 10
  let fracStr :=
    if d3 ≠ 0 then toString d1 ++ toString d2 ++ toString d3
    else if d2 ≠ 0 then toString d1 ++ toString d2
    else toString d1
  sign ++ toString ip ++ "." ++ fracStr

/-- A result content item (`types.TextContent` / `types.ImageContent`). -/
inductive Content where
  | text (text : String)
  | image (mimeType : String) (data : String)
deriving DecidableEq

/-- The tool-call argument mapping (`dict[str, Any]`), with string values. -/
abbrev Args := List (String × String)

/-- `arguments.get(k)` — first-match lookup. -/
def argsGet (args : Args) (k : String) : Option String :=
  (args.find? (fun p => p.1 == k)).map Prod.snd

/-- Python truthiness of an optional string (`if x and y:`): present and
non-empty. -/
def truthy : Option String → Bool
  | none => false
  | some s => s ≠ ""

/-- The base64 alphabet. -/
def b64Index (n : ℕ) : Char :=
  "ABCDEFGHIJKLMNOPQRSTUVWXYZabcdefghijklmnopqrstuvwxyz0123456789+/".toList.getD n 'A'

/-- Standard base64 of a byte stream (`base64.b64encode`), as characters. -/
def b64encodeList : List ℕ → List Char
  | [] => []
  | [a] =>
      [b64Index (a / 4 % 64), b64Index (a % 4 * 16), '=', '=']
  | [a, b] =>
      [b64Index (a / 4 % 64), b64Index (a % 4 * 16 + b / 16),
       b64Index (b % 16 * 4), '=']
  | a :: b :: c :: rest =>
      b64Index (a / 4 % 64) :: b64Index (a % 4 * 16 + b / 16) ::
      b64Index (b % 16 * 4 + c / 64) :: b64Index (c % 64) :: b64encodeList rest

/-- `b64encode(bytes).decode('utf-8')`. -/
def b64encode (bytes : List ℕ) : String :=
  String.mk (b64encodeList bytes)

/-- The PNG renderer: `df.plot(kind=..., [x=..., y=...,] title=...)` followed
by `savefig(out, format="png")`, producing the PNG byte stream.  This is
matplotlib's work, external to the repository, so it is a parameter of the
dispatcher: `render df kind xy title` with `xy = some (x, y)` for the
two-column form and `xy = none` for the default chart over all columns. -/
abbrev Render := Table → String → Option (String × String) → String → List ℕ

/-- The body of the `try:` block of `handle_call_tool`.  `Except.error m`
models `raise ValueError(m)`; `Except.ok none` models falling off the end of
the function (Python implicitly returns `None` when `name` matches no
branch). -/
def callToolBody (render : Render) (df : Table) (name : String)
    (arguments : Option Args) : Except String (Option (List Content)) :=
  if arguments = none ∨ arguments = some [] then
    .error "Missing arguments"
  else
    let args := arguments.getD []
    if name = "plot" then
      let kind := (argsGet args "kind").getD "bar"
      let x := argsGet args "x"
      let y := argsGet args "y"
      let title := (argsGet args "title").getD "Plot"
      if kind ∉ (["bar", "line", "scatter"] : List String) then
        .error ("Unsupported plot type: " ++ kind)
      else if truthy x && truthy y then
        let xs := x.getD ""
        let ys := y.getD ""
        if xs ∉ df.columns ∨ ys ∉ df.columns then
          .error ("Columns '" ++ xs ++ "' or '" ++ ys ++ "' not found in DataFrame")
        else
          let plot_data := render df kind (some (xs, ys)) title
          .ok (some [.text ("Generated " ++ kind ++ " plot"),
                     .image "image/png" (b64encode plot_data)])
      else
        let plot_data := render df kind none title
        .ok (some [.text ("Generated " ++ kind ++ " plot"),
                   .image "image/png" (b64encode plot_data)])
    else if name = "average" then
      match argsGet args "column" with
      | none =>
          -- `arguments.get("column")` is `None`; `None not in df.columns`
          -- always holds, and the f-string renders `None` as "None".
          .error "Column 'None' not found in DataFrame"
      | some column =>
          if column ∉ df.columns then
            .error ("Column '" ++ column ++ "' not found in DataFrame")
          else
            .ok (some [.text ("Average of " ++ column ++ ": " ++
                              fmtQ (round3 (listMean (df.getCol column))))])
    else
      .ok none

/-- `handle_call_tool`: the `try:` body with the `except Exception` clause
converting any raised message into a single `"Error: "`-prefixed Text item. -/
def handle_call_tool (render : Render) (df : Table) (name : String)
    (arguments : Option Args) : Option (List Content) :=
  match callToolBody render df name arguments with
  | .error e => some [.text ("Error: " ++ e)]
  | .ok r => r

/-! ### Resource reading (`handle_read_resource`) -/

/-- A parsed URI as the handler sees it: `uriStr u = scheme ++ "://" ++ rest`.
The Python handler receives a pydantic `AnyUrl`; it only ever looks at
`uri.scheme` and `str(uri)`, which this structure captures. -/
structure Uri where
  scheme : String
  rest : String
deriving DecidableEq

/-- `str(uri)`. -/
def uriStr (u : Uri) : String :=
  u.scheme ++ "://" ++ u.rest

/-- The two failure modes of `handle_read_resource` (both are
`raise ValueError(...)` in the source — raised to the caller, never converted
to Text items as tool-call failures are; hence the `Except` return type). -/
inductive ReadResourceError where
  | unsupportedScheme (scheme : String)
  | unknownResource (path : String)
deriving DecidableEq

/-- `s.replace("memo://", "")` specialised to the pattern `"memo://"`:
left-to-right removal of every (non-overlapping) occurrence, on the
character list of the string. -/
def stripMemo : List Char → List Char
  | 'm' :: 'e' :: 'm' :: 'o' :: ':' :: '/' :: '/' :: rest => stripMemo rest
  | c :: t => c :: stripMemo t
  | [] => []

/-- Whether a character list starts with `"memo://"`. -/
def memoPrefix : List Char → Bool
  | 'm' :: 'e' :: 'm' :: 'o' :: ':' :: '/' :: '/' :: _ => true
  | _ => false

/-- Whether `"memo://"` occurs as a contiguous substring of a character
list. -/
def hasMemoSub : List Char → Bool
  | [] => false
  | c :: t => memoPrefix (c :: t) || hasMemoSub t

/-- `handle_read_resource`: rejects non-`memo` schemes, strips `"memo://"`
from the URI string, rejects any path other than `"shape"`, and otherwise
returns `str(df.shape)`. -/
def handle_read_resource (df : Table) (uri : Uri) : Except ReadResourceError String :=
  if uri.scheme ≠ "memo" then
    .error (.unsupportedScheme uri.scheme)
  else
    let path := String.mk (stripMemo (uriStr uri).toList)
    if path = "" ∨ path ≠ "shape" then
      .error (.unknownResource path)
    else
      .ok (toString df.shape)

/-! ### Prompts (`handle_list_prompts` / `handle_get_prompt`) -/

/-- A prompt descriptor (`types.Prompt`), reduced to the fields the
handlers could ever produce. -/
structure Prompt where
  name : String
  description : String
deriving DecidableEq

/-- A get-prompt result (`types.GetPromptResult`), reduced likewise. -/
structure GetPromptResult where
  description : String
deriving DecidableEq

/-- Abridged excerpt of the `PROMPT_TEMPLATE` constant: in the source it is a
multi-kilobyte demo walkthrough text (copied from the SQLite example server)
that no handler ever references; only its presence matters to the claims, so
the text is abbreviated here. -/
def PROMPT_TEMPLATE : String :=
  "The assistants goal is to walkthrough an informative demo of MCP. " ++
  "To demonstrate the Model Context Protocol (MCP) we will leverage this " ++
  "example server to interact with an SQLite database. " ++
  "The topic is: {topic}. The user is now ready to begin the demo."

/-- `handle_list_prompts` — always the empty list. -/
def handle_list_prompts : List Prompt :=
  []

/-- `handle_get_prompt` — the body is a single logging call, so the function
implicitly returns `None` for every name and argument mapping (despite its
`GetPromptResult` return annotation). -/
def handle_get_prompt (_ : String) (_ : Option (List (String × String))) :
    Option GetPromptResult :=
  none

/-! ### Dataset loading (`load_data`) -/

/-- The pandas entry point `load_data` dispatches to, by file extension. -/
inductive PandasReader where
  | read_csv
  | read_json
  | read_excel
deriving DecidableEq

/-- Split a character list on `'/'` (the separator handling behind
`PurePath`). -/
def splitSlash : List Char → List (List Char)
  | [] => [[]]
  | '/' :: t => [] :: splitSlash t
  | c :: t =>
    match splitSlash t with
    | [] => [[c]]
    | h :: r => (c :: h) :: r

/-- `PurePath(p).name` for POSIX paths: the last non-empty
slash-separated component. -/
def pathName (p : String) : String :=
  String.mk (((splitSlash p.toList).filter (fun s => s ≠ [])).getLastD [])

/-- `name.rfind('.')` — the index of the last dot, if any. -/
def rfindDot : List Char → Option ℕ
  | [] => none
  | c :: t =>
    match rfindDot t with
    | some j => some (j + 1)
    | none => if c = '.' then some 0 else none

/-- `str.lower()`, character by character (ASCII, which covers the
extension literals compared against). -/
def lowerStr (s : String) : String :=
  String.mk (s.toList.map Char.toLower)

/-- `PurePath(p).suffix`: the extension of the final component, from the
last dot onwards, provided that dot is neither the first nor the last
character of the name. -/
def pySuffix (p : String) : String :=
  let name := (pathName p).toList
  match rfindDot name with
  | none => ""
  | some i => if 0 < i ∧ i < name.length - 1 then String.mk (name.drop i) else ""

/-- `load_data`: lower-cases `Path(data_path).suffix` and dispatches to the
pandas reader chosen by the extension; an unrecognised extension raises
`ValueError` (modelled as `Except.error` with the source's message).  The
actual parse (pandas reading the file) is external and not modelled. -/
def load_data (data_path : String) : Except String PandasReader :=
  let file_extension := lowerStr (pySuffix data_path)
  if file_extension = ".csv" then
    .ok .read_csv
  else if file_extension = ".json" then
    .ok .read_json
  else if file_extension = ".xls" ∨ file_extension = ".xlsx" then
    .ok .read_excel
  else
    .error ("Unsupported file format: " ++ file_extension)

/-- One protocol transaction against the (global, never reassigned) Table
state: `handle_call_tool` reads `df` and returns it unchanged — the handler
contains no assignment to the global. -/
def callToolStep (render : Render) (df : Table) (name : String)
    (arguments : Option Args) : Option (List Content) × Table :=
  (handle_call_tool render df name arguments, df)

end McpPandas

namespace McpPandas

/-! ### Theorems about the claims -/

/-- C1: the spec claims that `call_tool` with an unrecognised tool name and a
non-empty argument mapping returns a single Text error item, never an absent
result.  The code violates this: with a non-empty argument mapping and a name
that is neither "plot" nor "average", no branch of the dispatcher matches, no
exception is raised, and the Python function falls off the end of the `try:`
block, implicitly returning `None` — an absent result, despite the declared
`list[...]` return annotation.  This theorem evaluates the code at every such
input. -/
theorem call_tool_unknown_tool_falls_through (render : Render) (df : Table)
    (name : String) (args : Args)
    (h1 : name ≠ "plot") (h2 : name ≠ "average") (h3 : args ≠ []) :
    handle_call_tool render df name (some args) = none := by
  simp [handle_call_tool, callToolBody, h1, h2, h3]

/-- Witness for C1 at a concrete input: tool name "describe" with non-empty
arguments produces no result at all. -/
theorem call_tool_unknown_tool_falls_through_witness :
    handle_call_tool (fun _ _ _ _ => []) ⟨[("A", [1])]⟩ "describe"
      (some [("a", "b")]) = none :=
  call_tool_unknown_tool_falls_through _ _ _ _ (by decide) (by decide) (by decide)

/-- C7: for every tool name, `call_tool` with an absent (`None`) or empty
argument mapping returns exactly one Text item prefixed `"Error: "` (the
`raise ValueError("Missing arguments")` caught by the dispatcher's catch-all)
and never raises to the caller — the handler is total. -/
theorem call_tool_empty_arguments_error (render : Render) (df : Table)
    (name : String) (arguments : Option Args)
    (h : arguments = none ∨ arguments = some []) :
    handle_call_tool render df name arguments =
      some [Content.text ("Error: " ++ "Missing arguments")] := by
  rcases h with h | h <;> subst h <;> rfl

/-- Witness for C7 at concrete inputs: absent and empty argument mappings for
the "plot" tool. -/
theorem call_tool_empty_arguments_error_witness :
    handle_call_tool (fun _ _ _ _ => []) ⟨[("A", [1])]⟩ "plot" none =
      some [Content.text "Error: Missing arguments"] :=
  call_tool_empty_arguments_error _ _ _ _ (Or.inl rfl)

/-- C9: computing an average is idempotent and deterministic against the
unchanged Table: a tool-call transaction returns the Table state unchanged,
and a second `average` call with identical arguments against that state
returns a bit-identical result.  (In the source the handler only reads the
global `df` and never assigns it, and the mean/rounding/formatting pipeline is
a deterministic function of the Table and the column name.) -/
theorem average_calls_deterministic (render : Render) (df : Table) (c : String) :
    (callToolStep render df "average" (some [("column", c)])).2 = df ∧
    (callToolStep render df "average" (some [("column", c)])).1 =
      (callToolStep render
        ((callToolStep render df "average" (some [("column", c)])).2)
        "average" (some [("column", c)])).1 :=
  ⟨rfl, rfl⟩

/-- C10: the prompt capability is a stub — `list_prompts` always returns the
empty list and `get_prompt` returns no result for every name and argument
mapping, while the (abridged here) `PROMPT_TEMPLATE` constant the server
defines is non-empty and referenced by neither handler. -/
theorem prompts_stubbed :
    handle_list_prompts = ([] : List Prompt) ∧
    (∀ (name : String) (arguments : Option (List (String × String))),
      handle_get_prompt name arguments = none) ∧
    PROMPT_TEMPLATE ≠ "" :=
  ⟨rfl, fun _ _ => rfl, by decide⟩

/-- C4: `call_tool("average", {"column": c})` returns, when `c` is a column
of the Table, exactly one Text item `"Average of {c}: {v}"` with `v` the
column's arithmetic mean rounded to 3 decimal fractional digits (half to
even, as Python's `round`), and, when `c` is not a column, exactly one Text
item starting with `"Error: "`. -/
theorem average_tool_spec (render : Render) (df : Table) (c : String) :
    (c ∈ df.columns →
      handle_call_tool render df "average" (some [("column", c)]) =
        some [Content.text ("Average of " ++ c ++ ": " ++
          fmtQ (round3 (listMean (df.getCol c))))]) ∧
    (c ∉ df.columns →
      handle_call_tool render df "average" (some [("column", c)]) =
        some [Content.text ("Error: " ++
          ("Column '" ++ c ++ "' not found in DataFrame"))]) := by
  constructor <;> intro h <;>
    simp [handle_call_tool, callToolBody, argsGet, h]

/-- Witness for C4 at concrete inputs: the mean of column A = [1, 2] is
printed as "1.5", and a missing column Z yields the error Text item. -/
theorem average_tool_spec_witness :
    handle_call_tool (fun _ _ _ _ => []) ⟨[("A", [1, 2])]⟩ "average"
      (some [("column", "A")]) = some [Content.text "Average of A: 1.5"] ∧
    handle_call_tool (fun _ _ _ _ => []) ⟨[("A", [1, 2])]⟩ "average"
      (some [("column", "Z")]) =
        some [Content.text "Error: Column 'Z' not found in DataFrame"] := by
  constructor
  · have h := (average_tool_spec (fun _ _ _ _ => []) ⟨[("A", [1, 2])]⟩ "A").1
      (by decide)
    rw [h]
    with_unfolding_all decide
  · have h := (average_tool_spec (fun _ _ _ _ => []) ⟨[("A", [1, 2])]⟩ "Z").2
      (by decide)
    rw [h]
    rfl

/-- C2 counterexample: the claim says every `call_tool("plot", ...)` with
non-empty arguments lacking "kind" fails with a single Text error item.  At
the concrete input `{"title": "T"}` (non-empty, no "kind") the dispatcher
instead defaults the kind to "bar" and succeeds with a Text item and an Image
item. -/
theorem plot_missing_kind_not_an_error :
    (argsGet [("title", "T")] "kind" = none) ∧
    handle_call_tool (fun _ _ _ _ => []) ⟨[("A", [1])]⟩ "plot"
      (some [("title", "T")]) =
      some [Content.text "Generated bar plot", Content.image "image/png" ""] :=
  ⟨by decide, by decide⟩

/-- C2 amended: `kind` is not enforced as a required parameter by the
dispatcher — `call_tool("plot", arguments)` with non-empty arguments lacking
"kind" behaves exactly as if `"kind": "bar"` had been supplied
(`arguments.get("kind", "bar")`). -/
theorem plot_missing_kind_defaults_to_bar (render : Render) (df : Table)
    (args : Args) (hk : argsGet args "kind" = none) (hne : args ≠ []) :
    handle_call_tool render df "plot" (some args) =
      handle_call_tool render df "plot" (some (("kind", "bar") :: args)) := by
  have h1 : argsGet (("kind", "bar") :: args) "kind" = some "bar" := by
    simp [argsGet]
  have h2 : ∀ k : String, ("kind" == k) = false →
      argsGet (("kind", "bar") :: args) k = argsGet args k := by
    intro k hk2
    simp [argsGet, List.find?, hk2]
  simp [handle_call_tool, callToolBody, hne, hk, h1,
    h2 "x" (by decide), h2 "y" (by decide), h2 "title" (by decide)]

/-- Witness for the amended C2 at a concrete input. -/
theorem plot_missing_kind_defaults_to_bar_witness :
    handle_call_tool (fun _ k _ _ => k.toList.map Char.toNat)
        ⟨[("A", [1])]⟩ "plot" (some [("title", "T")]) =
      handle_call_tool (fun _ k _ _ => k.toList.map Char.toNat)
        ⟨[("A", [1])]⟩ "plot" (some [("kind", "bar"), ("title", "T")]) :=
  plot_missing_kind_defaults_to_bar _ _ _ (by decide) (by decide)

/-- C5: whenever `call_tool("plot", arguments)` succeeds (non-empty
arguments, a kind in the enumerated set, and the x/y column check passing
when both are supplied), the result is exactly two items in order: a Text
item `"Generated {kind} plot"` and an Image item with media type
`"image/png"` whose data is the base64 encoding of the rendered PNG byte
stream. -/
theorem plot_success_two_items (render : Render) (df : Table) (args : Args)
    (hne : args ≠ [])
    (hkind : (argsGet args "kind").getD "bar" ∈ (["bar", "line", "scatter"] : List String))
    (hcols : (truthy (argsGet args "x") && truthy (argsGet args "y")) = true →
      (argsGet args "x").getD "" ∈ df.columns ∧
      (argsGet args "y").getD "" ∈ df.columns) :
    handle_call_tool render df "plot" (some args) =
      some [Content.text ("Generated " ++ (argsGet args "kind").getD "bar" ++ " plot"),
            Content.image "image/png"
              (b64encode (render df ((argsGet args "kind").getD "bar")
                (if truthy (argsGet args "x") && truthy (argsGet args "y") then
                  some ((argsGet args "x").getD "", (argsGet args "y").getD "")
                 else none)
                ((argsGet args "title").getD "Plot")))] := by
  by_cases hb : (truthy (argsGet args "x") && truthy (argsGet args "y")) = true
  · obtain ⟨hx, hy⟩ := hcols hb
    simp [handle_call_tool, callToolBody, hne, hkind, hb, hx, hy]
  · rw [Bool.not_eq_true] at hb
    simp [handle_call_tool, callToolBody, hne, hkind, hb]

/-- Witness for C5 at a concrete input: a scatter plot over two present
columns, with a renderer producing the PNG-signature bytes. -/
theorem plot_success_two_items_witness :
    handle_call_tool (fun _ _ _ _ => [137, 80, 78, 71, 13, 10, 26, 10])
        ⟨[("A", [1]), ("B", [2])]⟩ "plot"
        (some [("kind", "scatter"), ("x", "A"), ("y", "B")]) =
      some [Content.text "Generated scatter plot",
            Content.image "image/png" "iVBORw0KGgo="] := by
  have h := plot_success_two_items
    (fun _ _ _ _ => [137, 80, 78, 71, 13, 10, 26, 10])
    ⟨[("A", [1]), ("B", [2])]⟩ [("kind", "scatter"), ("x", "A"), ("y", "B")]
    (by decide) (by decide) (fun _ => ⟨by decide, by decide⟩)
  rw [h]
  rfl

/-- C3 counterexample: the claim says any plot call in which `x` or `y` is
supplied with a non-column value fails with an `"Error: "` Text item and no
Image item.  At the concrete input `{"kind": "bar", "x": "Z"}` — `x` supplied
and not a column, `y` absent — the dispatcher takes the `else` branch
(`if x and y:` is false), ignores `x` entirely, and renders the default
chart. -/
theorem plot_bad_single_axis_not_an_error :
    ("Z" ∉ Table.columns ⟨[("A", [1])]⟩) ∧
    handle_call_tool (fun _ _ _ _ => []) ⟨[("A", [1])]⟩ "plot"
      (some [("kind", "bar"), ("x", "Z")]) =
      some [Content.text "Generated bar plot", Content.image "image/png" ""] :=
  ⟨by decide, by decide⟩

/-- C3 amended: the x/y column check applies only when both `x` and `y` are
supplied (and truthy).  Under a valid kind: if both are supplied and either
is not a column, the call fails with a single `"Error: "`-prefixed Text item
and no Image item; if both are supplied and both are columns, the
two-dimensional chart over those columns is rendered; otherwise — including
when exactly one of `x`/`y` is supplied, even with a non-column value — the
default chart over all columns is rendered. -/
theorem plot_axis_column_check (render : Render) (df : Table) (args : Args)
    (hne : args ≠ [])
    (hkind : (argsGet args "kind").getD "bar" ∈ (["bar", "line", "scatter"] : List String)) :
    ((truthy (argsGet args "x") && truthy (argsGet args "y")) = true →
      ((argsGet args "x").getD "" ∉ df.columns ∨ (argsGet args "y").getD "" ∉ df.columns →
        handle_call_tool render df "plot" (some args) =
          some [Content.text ("Error: " ++
            ("Columns '" ++ (argsGet args "x").getD "" ++ "' or '" ++
             (argsGet args "y").getD "" ++ "' not found in DataFrame"))]) ∧
      ((argsGet args "x").getD "" ∈ df.columns ∧ (argsGet args "y").getD "" ∈ df.columns →
        handle_call_tool render df "plot" (some args) =
          some [Content.text ("Generated " ++ (argsGet args "kind").getD "bar" ++ " plot"),
                Content.image "image/png"
                  (b64encode (render df ((argsGet args "kind").getD "bar")
                    (some ((argsGet args "x").getD "", (argsGet args "y").getD ""))
                    ((argsGet args "title").getD "Plot")))])) ∧
    ((truthy (argsGet args "x") && truthy (argsGet args "y")) = false →
      handle_call_tool render df "plot" (some args) =
        some [Content.text ("Generated " ++ (argsGet args "kind").getD "bar" ++ " plot"),
              Content.image "image/png"
                (b64encode (render df ((argsGet args "kind").getD "bar") none
                  ((argsGet args "title").getD "Plot")))]) := by
  refine ⟨fun hb => ⟨fun hbad => ?_, fun hgood => ?_⟩, fun hb => ?_⟩
  · simp [handle_call_tool, callToolBody, hne, hkind, hb, hbad]
  · simp [handle_call_tool, callToolBody, hne, hkind, hb, hgood.1, hgood.2]
  · simp [handle_call_tool, callToolBody, hne, hkind, hb]

/-- Witness for the amended C3 at concrete inputs: both columns supplied with
one absent from the Table gives the error item; both present gives the
two-dimensional chart. -/
theorem plot_axis_column_check_witness :
    handle_call_tool (fun _ _ _ _ => []) ⟨[("A", [1]), ("B", [2])]⟩ "plot"
      (some [("kind", "line"), ("x", "A"), ("y", "Z")]) =
      some [Content.text "Error: Columns 'A' or 'Z' not found in DataFrame"] ∧
    handle_call_tool (fun _ _ _ _ => []) ⟨[("A", [1]), ("B", [2])]⟩ "plot"
      (some [("kind", "line"), ("x", "A"), ("y", "B")]) =
      some [Content.text "Generated line plot", Content.image "image/png" ""] := by
  constructor
  · have h := ((plot_axis_column_check (fun _ _ _ _ => [])
      ⟨[("A", [1]), ("B", [2])]⟩ [("kind", "line"), ("x", "A"), ("y", "Z")]
      (by decide) (by decide)).1 (by decide)).1 (by decide)
    rw [h]
    rfl
  · have h := ((plot_axis_column_check (fun _ _ _ _ => [])
      ⟨[("A", [1]), ("B", [2])]⟩ [("kind", "line"), ("x", "A"), ("y", "B")]
      (by decide) (by decide)).1 (by decide)).2 ⟨by decide, by decide⟩
    rw [h]
    rfl

/-- Stripping `"memo://"` removes a leading occurrence of the pattern. -/
lemma stripMemo_cons_pattern (l : List Char) :
    stripMemo ('m' :: 'e' :: 'm' :: 'o' :: ':' :: '/' :: '/' :: l) = stripMemo l :=
  rfl

/-- If `"memo://"` does not occur in a character list, it does not occur in
the tail either. -/
lemma hasMemoSub_tail (c : Char) (t : List Char)
    (h : hasMemoSub (c :: t) = false) : hasMemoSub t = false := by
  have h2 : (memoPrefix (c :: t) || hasMemoSub t) = false := h
  exact (Bool.or_eq_false_iff.mp h2).2

/-- Stripping `"memo://"` from a list in which it does not occur is the
identity. -/
lemma stripMemo_of_not_hasMemoSub (l : List Char)
    (h : hasMemoSub l = false) : stripMemo l = l := by
  induction l using stripMemo.induct with
  | case1 rest ih =>
    exfalso
    have hp : memoPrefix ('m' :: 'e' :: 'm' :: 'o' :: ':' :: '/' :: '/' :: rest) = true := rfl
    simp [hasMemoSub, hp] at h
  | case2 c t hne ih =>
    have ht := ih (hasMemoSub_tail c t h)
    rw [stripMemo.eq_2 c t hne, ht]
  | case3 => rfl

/-- C6 counterexample: the claim says `read_resource` with scheme "memo"
raises `UnknownResource` if and only if the path component is not "shape".
The code computes the path with `str(uri).replace("memo://", "")`, which
removes every occurrence of `"memo://"`, not just the leading one: for the
URI `memo://memo://shape`, whose path component `"memo://shape"` is not
`"shape"`, the handler nevertheless succeeds and returns the shape string. -/
theorem read_resource_nested_memo_path :
    ((⟨"memo", "memo://shape"⟩ : Uri).rest ≠ "shape") ∧
    handle_read_resource ⟨[("A", [1])]⟩ ⟨"memo", "memo://shape"⟩ =
      .ok "(1, 1)" :=
  ⟨by decide, by rfl⟩

/-- C6 amended: `read_resource` raises `UnsupportedScheme` exactly on
schemes other than "memo"; given scheme "memo" it raises `UnknownResource`
exactly when stripping every occurrence of `"memo://"` from the URI string
leaves something other than "shape" — in particular, for URIs whose path
component does not itself contain `"memo://"`, exactly when the path
component is not "shape" — and on `memo://shape` it returns the string
rendering of the Table's shape pair.  Both failures are raised to the caller
(the `Except` error channel), not converted to Text items as tool-call
failures are. -/
theorem read_resource_spec (df : Table) (u : Uri) :
    (u.scheme ≠ "memo" →
      handle_read_resource df u = .error (.unsupportedScheme u.scheme)) ∧
    (u.scheme = "memo" → hasMemoSub u.rest.toList = false → u.rest ≠ "shape" →
      handle_read_resource df u = .error (.unknownResource u.rest)) ∧
    (u.scheme = "memo" → u.rest = "shape" →
      handle_read_resource df u = .ok (toString df.shape)) := by
  obtain ⟨s, rest⟩ := u
  refine ⟨fun h => ?_, fun hs hn hne => ?_, fun hs hr => ?_⟩
  · simp [handle_read_resource, h]
  · have hs' : s = "memo" := hs
    subst hs'
    have hn' : hasMemoSub rest.toList = false := hn
    have hne' : rest ≠ "shape" := hne
    have htl : ("memo" ++ "://" ++ rest : String).toList =
        'm' :: 'e' :: 'm' :: 'o' :: ':' :: '/' :: '/' :: rest.toList := rfl
    simp only [handle_read_resource, uriStr]
    rw [if_neg (by simp)]
    rw [htl, stripMemo_cons_pattern, stripMemo_of_not_hasMemoSub _ hn']
    have hmk : String.mk rest.toList = rest := rfl
    rw [hmk, if_pos (Or.inr hne')]
  · have hs' : s = "memo" := hs
    have hr' : rest = "shape" := hr
    subst hs'
    subst hr'
    rfl

/-- Witness for the amended C6 at concrete inputs: a non-"memo" scheme, an
unknown "memo" path, and the "shape" resource on a 1-row 1-column Table. -/
theorem read_resource_spec_witness :
    handle_read_resource ⟨[("A", [1])]⟩ ⟨"http", "shape"⟩ =
      .error (.unsupportedScheme "http") ∧
    handle_read_resource ⟨[("A", [1])]⟩ ⟨"memo", "other"⟩ =
      .error (.unknownResource "other") ∧
    handle_read_resource ⟨[("A", [1])]⟩ ⟨"memo", "shape"⟩ = .ok "(1, 1)" := by
  refine ⟨(read_resource_spec _ _).1 (by decide),
          (read_resource_spec _ _).2.1 rfl (by decide) (by decide), ?_⟩
  have h := (read_resource_spec ⟨[("A", [1])]⟩ ⟨"memo", "shape"⟩).2.2 rfl rfl
  rw [h]
  rfl

/-- C8: `load_data` fails (with the "Unsupported file format" `ValueError`)
exactly when the path's extension, compared case-insensitively (the code
lower-cases `Path(path).suffix`), is not one of `.csv`, `.json`, `.xls`,
`.xlsx`; for each supported extension it dispatches to the pandas reader that
extension selects. -/
theorem load_data_extension_dispatch (path : String) :
    ((∃ e, load_data path = .error e) ↔
      lowerStr (pySuffix path) ∉ ([".csv", ".json", ".xls", ".xlsx"] : List String)) ∧
    (load_data path = .ok .read_csv ↔ lowerStr (pySuffix path) = ".csv") ∧
    (load_data path = .ok .read_json ↔ lowerStr (pySuffix path) = ".json") ∧
    (load_data path = .ok .read_excel ↔
      (lowerStr (pySuffix path) = ".xls" ∨ lowerStr (pySuffix path) = ".xlsx")) := by
  by_cases h1 : lowerStr (pySuffix path) = ".csv"
  · simp [load_data, h1]
  · by_cases h2 : lowerStr (pySuffix path) = ".json"
    · simp [load_data, h1, h2]
    · by_cases h3 : lowerStr (pySuffix path) = ".xls"
      · simp [load_data, h1, h2, h3]
      · by_cases h4 : lowerStr (pySuffix path) = ".xlsx"
        · simp [load_data, h1, h2, h3, h4]
        · simp [load_data, h1, h2, h3, h4]

end McpPandas
